import Mathlib

/-!
Verification of the checkout fulfillment workflow of saleor-platform.

The repository source under scrutiny is the end-to-end test
`saleor-dashboard/cypress/integration/checkout/purchaseWithProductTypes.js`.
The checkout backend it drives (createCheckout, checkoutVariantsUpdate,
checkoutShippingAddressUpdate, getShippingMethodIdFromCheckout, addPayment,
completeCheckout) is not part of the repository sources, so the core is
modelled from the specification (spec.md sections 3 and 4), with the test
file as the authority on observable behavior wherever it pins it down.
-/

namespace Saleor

/-- Modelled from the spec: a LineItem is {variantId, quantity, isDigital},
the digital/physical tag coming from the product type. -/
structure LineItem where
  variantId : Nat
  quantity : Nat
  isDigital : Bool
deriving Repr, DecidableEq

/-- Modelled from the spec: payment errors surfaced by `attemptPayment`.
`ShippingMethodRequired` is produced by the core itself; `gatewayError`
stands for any error code forwarded verbatim from the external payment
gateway. -/
inductive PayError where
  | ShippingMethodRequired : PayError
  | gatewayError : Nat → PayError
deriving Repr, DecidableEq

/-- Modelled from the spec: order status enumeration; the initial value of
every order produced by the Completion Transition is `UNFULFILLED`. -/
inductive OrderStatus where
  | UNFULFILLED : OrderStatus
  | FULFILLED : OrderStatus
  | CANCELED : OrderStatus
deriving Repr, DecidableEq

/-- Modelled from the spec: error taxonomy of section 7 (the subset the
core operations themselves return). -/
inductive Err where
  | InvalidChannel : Err
  | EmptyCart : Err
  | CheckoutCompleted : Err
  | CheckoutNotReady : Err
  | NotFound : Err
deriving Repr, DecidableEq

/-- Modelled from the spec: the mutable Checkout aggregate (section 3).
Operations take the aggregate itself rather than an id, so the
`CheckoutNotFound` lookup failure of the id-indexed store is out of scope.
Addresses are opaque identifiers. -/
structure Checkout where
  id : Nat
  channelSlug : String
  email : String
  lines : List LineItem
  billingAddress : Option Nat
  shippingAddress : Option Nat
  isShippingRequired : Bool
  shippingMethod : Option (Nat × String)
  paymentAttempt : Option (List PayError)
  completed : Bool
deriving Repr, DecidableEq

/-- Modelled from the spec: the immutable Order snapshot (section 3). -/
structure Order where
  id : Nat
  status : OrderStatus
  isShippingRequired : Bool
  lines : List LineItem
  billingAddress : Option Nat
  shippingAddress : Option Nat
  paymentResult : Option (List PayError)
deriving Repr, DecidableEq

/-- Modelled from the spec: result shape of `attemptPayment`,
{success : bool, errors : ordered sequence}. -/
structure PaymentResult where
  success : Bool
  errors : List PayError
deriving Repr, DecidableEq

/-- Decidable equality for `Except` results, so operation outcomes can be
evaluated on concrete inputs. -/
instance instDecEqExcept {E A : Type} [DecidableEq E] [DecidableEq A] :
    DecidableEq (Except E A) := fun x y =>
  match x, y with
  | .ok a, .ok b =>
    if h : a = b then .isTrue (by rw [h])
    else .isFalse (fun hab => h (by injection hab))
  | .error a, .error b =>
    if h : a = b then .isTrue (by rw [h])
    else .isFalse (fun hab => h (by injection hab))
  | .ok _, .error _ => .isFalse (fun hab => by injection hab)
  | .error _, .ok _ => .isFalse (fun hab => by injection hab)

/-- Modelled from the spec: the external collaborators of section 6 that
the Validation Gate consults. `channels` is the set of known channel
slugs, `rates` maps a (validated) shipping address to the available
shipping methods as (id, name) pairs, and `gateway` is the external
payment provider returning its error list for a checkout snapshot. -/
structure Env where
  channels : List String
  rates : Nat → List (Nat × String)
  gateway : Checkout → List PayError

/-- Modelled from the spec: the Line Item Classifier (section 4.1), a pure
total function returning true iff at least one line item is physical
(non-digital); the empty sequence yields false. -/
def classify (lines : List LineItem) : Bool :=
  lines.any (fun li => !li.isDigital)

/-- Modelled from the spec: `create` (section 4.2) computes
`isShippingRequired` via the classifier at creation; fails with
`InvalidChannel` if the channel is unknown and `EmptyCart` if `lines` is
empty. -/
def create (e : Env) (cid : Nat) (channelSlug email : String)
    (billing : Option Nat) (lines : List LineItem) : Except Err Checkout :=
  if channelSlug ∉ e.channels then .error .InvalidChannel
  else if lines = [] then .error .EmptyCart
  else .ok
    { id := cid
      channelSlug := channelSlug
      email := email
      lines := lines
      billingAddress := billing
      shippingAddress := none
      isShippingRequired := classify lines
      shippingMethod := none
      paymentAttempt := none
      completed := false }

/-- Modelled from the spec: `updateLines` (section 4.2) replaces the line
list and fails with `CheckoutCompleted` after completion. The spec text
says `isShippingRequired` is fixed at creation, but the source test
SALEOR_0404 (purchaseWithProductTypes.js) creates a checkout with digital
variants, updates its lines to physical variants, and then asserts that
`addPayment` without a shipping method yields exactly one error and that
the final order has `isShippingRequired == true`; both observations force
the flag to be recomputed from the new lines, so the model recomputes it
here. `updateLinesKeepFlag` below follows the spec's literal words for
comparison. -/
def updateLines (c : Checkout) (lines : List LineItem) : Except Err Checkout :=
  if c.completed then .error .CheckoutCompleted
  else .ok { c with lines := lines, isShippingRequired := classify lines }

/-- Modelled from the spec, literal variant: `updateLines` as the spec
sentence states it — replaces the line list and recomputes nothing else,
`isShippingRequired` keeping its creation value. Shown below to
contradict the assertions of the source test SALEOR_0404. -/
def updateLinesKeepFlag (c : Checkout) (lines : List LineItem) :
    Except Err Checkout :=
  if c.completed then .error .CheckoutCompleted
  else .ok { c with lines := lines }

/-- Modelled from the spec: `setBillingAddress` (section 4.2) fails with
`CheckoutCompleted` on a completed checkout, otherwise always succeeds. -/
def setBillingAddress (c : Checkout) (a : Nat) : Except Err Checkout :=
  if c.completed then .error .CheckoutCompleted
  else .ok { c with billingAddress := some a }

/-- Modelled from the spec: `setShippingAddress` (section 4.2) fails with
`CheckoutCompleted` on a completed checkout, otherwise always succeeds
(address validation belongs to the external collaborator). -/
def setShippingAddress (c : Checkout) (a : Nat) : Except Err Checkout :=
  if c.completed then .error .CheckoutCompleted
  else .ok { c with shippingAddress := some a }

/-- Modelled from the spec: `resolveShippingMethod` (section 4.3) returns
the method id iff the checkout has a shipping address set and a method of
the given name is available for that address; otherwise `none`
(NotFound). This guarded branch is the only code path that returns a
method. -/
def resolveShippingMethod (e : Env) (c : Checkout) (methodName : String) :
    Option Nat :=
  match c.shippingAddress with
  | none => none
  | some a => ((e.rates a).find? (fun m => m.2 = methodName)).map (fun m => m.1)

/-- Modelled from the spec: setting the shipping method by name, as the
test helper `updateShippingInCheckout` does — resolve through the
Validation Gate and store the (id, name) reference; `NotFound` when the
gate yields none, `CheckoutCompleted` after completion. -/
def setShippingMethodByName (e : Env) (c : Checkout) (methodName : String) :
    Except Err Checkout :=
  if c.completed then .error .CheckoutCompleted
  else
    match resolveShippingMethod e c methodName with
    | none => .error .NotFound
    | some mid => .ok { c with shippingMethod := some (mid, methodName) }

/-- Modelled from the spec: `attemptPayment` (section 4.3). If the
checkout requires shipping and has no shipping method, it returns exactly
one `ShippingMethodRequired` error without contacting the payment
gateway; otherwise it delegates to the gateway and surfaces its error
list verbatim. The result is recorded in the checkout's `paymentAttempt`
field, which `canComplete` later reads as the last attempt. It is a total
function: it never throws. -/
def attemptPayment (e : Env) (c : Checkout) : Checkout × PaymentResult :=
  if c.isShippingRequired ∧ c.shippingMethod = none then
    ({ c with paymentAttempt := some [.ShippingMethodRequired] },
      { success := false, errors := [.ShippingMethodRequired] })
  else
    let errs := e.gateway c
    ({ c with paymentAttempt := some errs },
      { success := errs.isEmpty, errors := errs })

/-- Modelled from the spec: `canComplete` (section 4.3) is true iff
(shipping is not required, or both shipping address and shipping method
are set) and the last `attemptPayment` result had zero errors. -/
def canComplete (c : Checkout) : Bool :=
  (!c.isShippingRequired || (c.shippingAddress.isSome && c.shippingMethod.isSome))
    && (match c.paymentAttempt with
        | some errs => errs.isEmpty
        | none => false)

/-- Modelled from the spec: the Completion Transition (section 4.4).
Fails with `CheckoutCompleted` on an already completed checkout and with
`CheckoutNotReady` when `canComplete` is false; on success it marks the
checkout completed (terminal, irreversible) and snapshots its fields into
a new Order with status `UNFULFILLED`. -/
def complete (c : Checkout) : Except Err (Checkout × Order) :=
  if c.completed then .error .CheckoutCompleted
  else if canComplete c then
    .ok ({ c with completed := true },
      { id := c.id
        status := .UNFULFILLED
        isShippingRequired := c.isShippingRequired
        lines := c.lines
        billingAddress := c.billingAddress
        shippingAddress := c.shippingAddress
        paymentResult := c.paymentAttempt })
  else .error .CheckoutNotReady

/-- The operations a caller can apply to an existing checkout, used to
state trace properties (which operations were or were not called, and
that `completed` is never reset along any trace). -/
inductive Op where
  | updateLines : List LineItem → Op
  | setBillingAddress : Nat → Op
  | setShippingAddress : Nat → Op
  | setShippingMethodByName : String → Op
  | attemptPayment : Op
  | complete : Op
deriving Repr, DecidableEq

/-- Apply one operation to a checkout; a failing operation leaves the
checkout unchanged. -/
def applyOp (e : Env) (op : Op) (c : Checkout) : Checkout :=
  match op with
  | .updateLines ls =>
    match updateLines c ls with
    | .ok c2 => c2
    | .error _ => c
  | .setBillingAddress a =>
    match setBillingAddress c a with
    | .ok c2 => c2
    | .error _ => c
  | .setShippingAddress a =>
    match setShippingAddress c a with
    | .ok c2 => c2
    | .error _ => c
  | .setShippingMethodByName n =>
    match setShippingMethodByName e c n with
    | .ok c2 => c2
    | .error _ => c
  | .attemptPayment => (attemptPayment e c).1
  | .complete =>
    match complete c with
    | .ok (c2, _) => c2
    | .error _ => c

/-- Run a sequence of operations left to right. -/
def run (e : Env) (ops : List Op) (c : Checkout) : Checkout :=
  ops.foldl (fun acc op => applyOp e op acc) c

/-- True of the operations forbidden by the digital short-circuit
property: setting a shipping address or touching the shipping-method
resolution. -/
def Op.touchesShipping : Op → Bool
  | .setShippingAddress _ => true
  | .setShippingMethodByName _ => true
  | _ => false

/-! Concrete fixtures mirroring the data of the source test file: one
default channel, one shipping method ("Standard"), one digital and one
physical variant, and a payment gateway that accepts every snapshot. -/

/-- A concrete environment: one known channel, one shipping method
available at every address, a gateway that returns no errors. -/
def envW : Env :=
  { channels := ["default-channel"]
    rates := fun _ => [(7, "Standard")]
    gateway := fun _ => [] }

/-- A digital variant line item. -/
def digLine : LineItem := { variantId := 1, quantity := 1, isDigital := true }

/-- A physical variant line item. -/
def physLine : LineItem := { variantId := 2, quantity := 1, isDigital := false }

/-- The checkout produced by `create` from the digital line (as in tests
SALEOR_0402 and SALEOR_0404). -/
def cDig : Checkout :=
  { id := 1
    channelSlug := "default-channel"
    email := "customer@example.com"
    lines := [digLine]
    billingAddress := some 3
    shippingAddress := none
    isShippingRequired := false
    shippingMethod := none
    paymentAttempt := none
    completed := false }

/-- `cDig` after `updateLines` to the physical line. -/
def cDigPhys : Checkout :=
  { cDig with lines := [physLine], isShippingRequired := true }

/-- A digital-only checkout whose payment attempt succeeded: ready to
complete. -/
def cDigitalReady : Checkout := { cDig with paymentAttempt := some [] }

/-- A shipping-required checkout with an address but no shipping method
and no payment attempt yet. -/
def cPhysNoMethod : Checkout :=
  { id := 2
    channelSlug := "default-channel"
    email := "customer@example.com"
    lines := [physLine]
    billingAddress := some 3
    shippingAddress := some 5
    isShippingRequired := true
    shippingMethod := none
    paymentAttempt := none
    completed := false }

/-- A ready checkout whose stored `isShippingRequired` flag disagrees
with what the classifier would say about its lines, to observe that the
Completion Transition copies the flag instead of recomputing it. -/
def cMismatch : Checkout :=
  { id := 3
    channelSlug := "default-channel"
    email := "customer@example.com"
    lines := [physLine]
    billingAddress := none
    shippingAddress := none
    isShippingRequired := false
    shippingMethod := none
    paymentAttempt := some []
    completed := false }

/-! Claim theorems. -/

/-- C6: the line-item classifier is a pure total function: it returns
true iff at least one variant in the list is physical, the empty
sequence yields false, and two calls on the same list agree. Totality
and freedom from side effects hold by construction: `classify` is a
plain function into `Bool`. -/
theorem classifier_pure_total :
    classify [] = false ∧
    ∀ L : List LineItem,
      (classify L = true ↔ ∃ li ∈ L, li.isDigital = false) ∧
      classify L = classify L := by
  refine ⟨rfl, fun L => ⟨?_, rfl⟩⟩
  simp [classify, List.any_eq_true]

/-- C3: for every checkout without a shipping address and every method
name, `resolveShippingMethod` returns NotFound (`none`), whatever the
environment offers: no partial or default method is ever produced in
that state. -/
theorem resolveShippingMethod_no_address_notFound (e : Env) (c : Checkout)
    (name : String) (h : c.shippingAddress = none) :
    resolveShippingMethod e c name = none := by
  simp [resolveShippingMethod, h]

/-- Witness for C3 at the concrete digital checkout, which has no
shipping address. -/
theorem resolveShippingMethod_no_address_notFound_witness :
    cDig.shippingAddress = none ∧
    resolveShippingMethod envW cDig "Standard" = none :=
  ⟨rfl, resolveShippingMethod_no_address_notFound envW cDig "Standard" rfl⟩

/-- C2: on a shipping-required checkout with an address set and no
shipping method, `attemptPayment` returns a structured result with
exactly the single error `ShippingMethodRequired`, and the result does
not depend on the environment at all — in particular the external
payment gateway is never consulted. The operation is a total function,
so it cannot throw. -/
theorem attemptPayment_missing_method_single_error (e : Env) (c : Checkout)
    (hreq : c.isShippingRequired = true) (_haddr : c.shippingAddress.isSome)
    (hm : c.shippingMethod = none) :
    (attemptPayment e c).2 =
      { success := false, errors := [.ShippingMethodRequired] } ∧
    (attemptPayment e c).2.errors.length = 1 ∧
    ∀ e2 : Env, attemptPayment e2 c = attemptPayment e c := by
  refine ⟨?_, ?_, fun e2 => ?_⟩ <;>
    simp [attemptPayment, hreq, hm]

/-- Witness for C2 at the concrete physical checkout with address and no
method. -/
theorem attemptPayment_missing_method_single_error_witness :
    cPhysNoMethod.isShippingRequired = true ∧
    cPhysNoMethod.shippingAddress.isSome ∧
    cPhysNoMethod.shippingMethod = none ∧
    ((attemptPayment envW cPhysNoMethod).2 =
        { success := false, errors := [.ShippingMethodRequired] } ∧
      (attemptPayment envW cPhysNoMethod).2.errors.length = 1 ∧
      ∀ e2 : Env, attemptPayment e2 cPhysNoMethod = attemptPayment envW cPhysNoMethod) :=
  ⟨rfl, rfl, rfl,
    attemptPayment_missing_method_single_error envW cPhysNoMethod rfl rfl rfl⟩

/-- C7: every order produced by a successful `complete` has status
UNFULFILLED, whether or not the checkout required shipping. -/
theorem complete_order_status_unfulfilled (c c2 : Checkout) (o : Order)
    (h : complete c = .ok (c2, o)) : o.status = .UNFULFILLED := by
  unfold complete at h
  by_cases hc : c.completed
  · simp [hc] at h
  · by_cases hr : canComplete c
    · simp [hc, hr] at h
      obtain ⟨-, h2⟩ := h
      subst h2
      rfl
    · simp [hc, hr] at h

/-- Witness for C7: completing the ready digital checkout yields an
UNFULFILLED order. -/
theorem complete_order_status_unfulfilled_witness :
    ∃ c2 o, complete cDigitalReady = .ok (c2, o) ∧ o.status = .UNFULFILLED := by
  refine ⟨_, _, rfl, ?_⟩
  exact complete_order_status_unfulfilled cDigitalReady _ _ rfl

/-- C8: the Completion Transition copies `isShippingRequired` verbatim
from the source checkout into the order; it never recomputes it from the
order's lines. -/
theorem order_isShippingRequired_copied (c c2 : Checkout) (o : Order)
    (h : complete c = .ok (c2, o)) : o.isShippingRequired = c.isShippingRequired := by
  unfold complete at h
  by_cases hc : c.completed
  · simp [hc] at h
  · by_cases hr : canComplete c
    · simp [hc, hr] at h
      obtain ⟨-, h2⟩ := h
      subst h2
      rfl
    · simp [hc, hr] at h

/-- Witness for C8 at a checkout whose stored flag disagrees with the
classifier on its lines: the order inherits the stored flag, visibly not
a recomputation from the lines. -/
theorem order_isShippingRequired_copied_witness :
    ∃ c2 o, complete cMismatch = .ok (c2, o) ∧
      o.isShippingRequired = cMismatch.isShippingRequired ∧
      o.isShippingRequired ≠ classify o.lines := by
  refine ⟨_, _, rfl, order_isShippingRequired_copied cMismatch _ _ rfl, ?_⟩
  decide

/-- Every single operation preserves a completed checkout's terminal
flag: no operation resets `completed` to false. -/
theorem applyOp_preserves_completed (e : Env) (op : Op) (c : Checkout)
    (h : c.completed = true) : (applyOp e op c).completed = true := by
  cases op <;>
    simp [applyOp, updateLines, setBillingAddress, setShippingAddress,
      setShippingMethodByName, attemptPayment, complete, h]
  split <;> simp [h]

/-- Along every trace of operations, a completed checkout stays
completed. -/
theorem run_preserves_completed (e : Env) (ops : List Op) (c : Checkout)
    (h : c.completed = true) : (run e ops c).completed = true := by
  induction ops generalizing c with
  | nil => exact h
  | cons op rest ih =>
    exact ih (applyOp e op c) (applyOp_preserves_completed e op c h)

/-- C5: `canComplete` is true iff (shipping is not required, or both
shipping address and shipping method are set) and the most recent
`attemptPayment` result recorded on the checkout had zero errors;
`complete` succeeds exactly when `canComplete` is true and `completed` is
false, and otherwise fails with `CheckoutCompleted` (on a completed
checkout) or `CheckoutNotReady`. -/
theorem canComplete_iff_and_complete_cases (c : Checkout) :
    (canComplete c = true ↔
      ((c.isShippingRequired = false ∨
          (c.shippingAddress ≠ none ∧ c.shippingMethod ≠ none)) ∧
        c.paymentAttempt = some [])) ∧
    ((∃ c2 o, complete c = .ok (c2, o)) ↔
      (canComplete c = true ∧ c.completed = false)) ∧
    (∀ err, complete c = .error err →
      (err = .CheckoutCompleted ∧ c.completed = true) ∨
      (err = .CheckoutNotReady ∧ canComplete c = false ∧ c.completed = false)) := by
  refine ⟨?_, ?_, ?_⟩
  · cases hp : c.paymentAttempt with
    | none => simp [canComplete, hp]
    | some errs =>
      cases errs with
      | nil =>
        simp [canComplete, hp, Option.isSome_iff_ne_none]
      | cons a t =>
        simp [canComplete, hp]
  · by_cases hc : c.completed
    · simp [complete, hc]
    · by_cases hr : canComplete c
      · simp [complete, hc, hr]
      · simp [complete, hc, hr]
  · intro err herr
    unfold complete at herr
    by_cases hc : c.completed
    · simp [hc] at herr
      simp [herr, hc]
    · by_cases hr : canComplete c
      · simp [hc, hr] at herr
      · simp [hc, hr] at herr
        simp [herr, hr, hc]

/-- Witness for C5: its instantiation at the ready digital checkout. -/
theorem canComplete_iff_and_complete_cases_witness :
    (canComplete cDigitalReady = true ↔
      ((cDigitalReady.isShippingRequired = false ∨
          (cDigitalReady.shippingAddress ≠ none ∧
            cDigitalReady.shippingMethod ≠ none)) ∧
        cDigitalReady.paymentAttempt = some [])) ∧
    ((∃ c2 o, complete cDigitalReady = .ok (c2, o)) ↔
      (canComplete cDigitalReady = true ∧ cDigitalReady.completed = false)) ∧
    (∀ err, complete cDigitalReady = .error err →
      (err = .CheckoutCompleted ∧ cDigitalReady.completed = true) ∨
      (err = .CheckoutNotReady ∧ canComplete cDigitalReady = false ∧
        cDigitalReady.completed = false)) :=
  canComplete_iff_and_complete_cases cDigitalReady

/-- C4: the completed flag transitions false to true at most once and is
irreversible. On a checkout that meets the preconditions, `complete`
succeeds and marks it completed; a second `complete` on the result fails
with `CheckoutCompleted`; and no trace of further operations ever resets
the flag. -/
theorem completed_terminal_irreversible (e : Env) (c : Checkout)
    (h0 : c.completed = false) (h1 : canComplete c = true) :
    ∃ c2 o, complete c = .ok (c2, o) ∧ c2.completed = true ∧
      complete c2 = .error .CheckoutCompleted ∧
      ∀ ops : List Op, (run e ops c2).completed = true := by
  have hok : complete c = .ok ({ c with completed := true },
      { id := c.id, status := .UNFULFILLED,
        isShippingRequired := c.isShippingRequired, lines := c.lines,
        billingAddress := c.billingAddress,
        shippingAddress := c.shippingAddress,
        paymentResult := c.paymentAttempt }) := by
    simp [complete, h0, h1]
  exact ⟨_, _, hok, rfl, by simp [complete],
    fun ops => run_preserves_completed e ops _ rfl⟩

/-- Witness for C4 at the ready digital checkout. -/
theorem completed_terminal_irreversible_witness :
    cDigitalReady.completed = false ∧ canComplete cDigitalReady = true ∧
    ∃ c2 o, complete cDigitalReady = .ok (c2, o) ∧ c2.completed = true ∧
      complete c2 = .error .CheckoutCompleted ∧
      ∀ ops : List Op, (run envW ops c2).completed = true :=
  ⟨rfl, by decide,
    completed_terminal_irreversible envW cDigitalReady rfl (by decide)⟩

/-! Helper lemmas about single operations, shared by several claim
proofs. -/

/-- On a known channel with a nonempty cart, `create` yields the fresh
checkout with the flag computed by the classifier. -/
theorem create_ok (e : Env) (cid : Nat) (slug email : String)
    (billing : Option Nat) (lines : List LineItem)
    (hch : slug ∈ e.channels) (hne : lines ≠ []) :
    create e cid slug email billing lines = .ok
      { id := cid, channelSlug := slug, email := email, lines := lines,
        billingAddress := billing, shippingAddress := none,
        isShippingRequired := classify lines, shippingMethod := none,
        paymentAttempt := none, completed := false } := by
  simp [create, hch, hne]

/-- On a non-completed ready checkout, `complete` succeeds with the
expected snapshot. -/
theorem complete_eq_of_ready (c : Checkout) (h0 : c.completed = false)
    (h1 : canComplete c = true) :
    complete c = .ok ({ c with completed := true },
      { id := c.id, status := .UNFULFILLED,
        isShippingRequired := c.isShippingRequired, lines := c.lines,
        billingAddress := c.billingAddress,
        shippingAddress := c.shippingAddress,
        paymentResult := c.paymentAttempt }) := by
  simp [complete, h0, h1]

/-- `setShippingAddress` on a non-completed checkout stores the
address. -/
theorem setShippingAddress_ok (c : Checkout) (a : Nat)
    (h : c.completed = false) :
    setShippingAddress c a = .ok { c with shippingAddress := some a } := by
  simp [setShippingAddress, h]

/-- When the missing-method guard does not fire, `attemptPayment`
delegates to the gateway and records its verbatim error list. -/
theorem attemptPayment_delegates (e : Env) (c : Checkout)
    (h : ¬(c.isShippingRequired = true ∧ c.shippingMethod = none)) :
    attemptPayment e c = ({ c with paymentAttempt := some (e.gateway c) },
      { success := (e.gateway c).isEmpty, errors := e.gateway c }) := by
  rw [attemptPayment, if_neg h]

/-- `attemptPayment` only ever rewrites the `paymentAttempt` field. -/
theorem attemptPayment_shape (e : Env) (c : Checkout) :
    ∃ p, (attemptPayment e c).1 = { c with paymentAttempt := some p } := by
  unfold attemptPayment
  split
  · exact ⟨_, rfl⟩
  · exact ⟨_, rfl⟩

/-! Claims C1, C9, C10 and the replay of the source test SALEOR_0404. -/

/-- C1 counterexample: the claim that `isShippingRequired` keeps the
value derived at creation across `updateLines` is false. The checkout
created from the digital line has the flag false; one `updateLines` call
to the physical line flips it to true — exactly the transition the
source test SALEOR_0404 observes through its assertions. -/
theorem updateLines_flag_not_fixed_at_creation :
    create envW 1 "default-channel" "customer@example.com" (some 3) [digLine]
        = .ok cDig ∧
    cDig.isShippingRequired = false ∧
    updateLines cDig [physLine] = .ok cDigPhys ∧
    cDigPhys.isShippingRequired = true := by
  decide

/-- C1 (amended): on a non-completed checkout, `updateLines` replaces
the line list, recomputes `isShippingRequired` from the new lines, and
changes no other field of the checkout. -/
theorem updateLines_replaces_and_reclassifies (c : Checkout)
    (ls : List LineItem) (h : c.completed = false) :
    ∃ c2, updateLines c ls = .ok c2 ∧ c2.lines = ls ∧
      c2.isShippingRequired = classify ls ∧ c2.id = c.id ∧
      c2.channelSlug = c.channelSlug ∧ c2.email = c.email ∧
      c2.billingAddress = c.billingAddress ∧
      c2.shippingAddress = c.shippingAddress ∧
      c2.shippingMethod = c.shippingMethod ∧
      c2.paymentAttempt = c.paymentAttempt ∧
      c2.completed = false :=
  ⟨{ c with lines := ls, isShippingRequired := classify ls },
    by simp [updateLines, h], rfl, rfl, rfl, rfl, rfl, rfl, rfl, rfl, rfl, h⟩

/-- Witness for the amended C1 at the digital checkout updated to the
physical line. -/
theorem updateLines_replaces_and_reclassifies_witness :
    cDig.completed = false ∧
    ∃ c2, updateLines cDig [physLine] = .ok c2 ∧ c2.lines = [physLine] ∧
      c2.isShippingRequired = classify [physLine] ∧ c2.id = cDig.id ∧
      c2.channelSlug = cDig.channelSlug ∧ c2.email = cDig.email ∧
      c2.billingAddress = cDig.billingAddress ∧
      c2.shippingAddress = cDig.shippingAddress ∧
      c2.shippingMethod = cDig.shippingMethod ∧
      c2.paymentAttempt = cDig.paymentAttempt ∧
      c2.completed = false :=
  ⟨rfl, updateLines_replaces_and_reclassifies cDig [physLine] rfl⟩

/-- C9: a checkout created from all-digital lines has
`isShippingRequired = false`, and (with an accepting gateway) a payment
attempt followed by `complete` succeeds, producing an UNFULFILLED order
with `isShippingRequired = false` — along a trace that contains no
`setShippingAddress` and no shipping-method resolution at all. -/
theorem digital_short_circuit (e : Env) (cid : Nat) (slug email : String)
    (billing : Option Nat) (lines : List LineItem)
    (hch : slug ∈ e.channels) (hne : lines ≠ [])
    (hdig : ∀ li ∈ lines, li.isDigital = true)
    (hg : ∀ d, e.gateway d = []) :
    ∃ c0, create e cid slug email billing lines = .ok c0 ∧
      c0.isShippingRequired = false ∧ c0.shippingAddress = none ∧
      (∃ c2 o, complete (attemptPayment e c0).1 = .ok (c2, o) ∧
        o.isShippingRequired = false ∧ o.status = .UNFULFILLED) ∧
      ∃ ops : List Op, (∀ op ∈ ops, op.touchesShipping = false) ∧
        (run e ops c0).completed = true := by
  have hcl : classify lines = false := by
    simp only [classify, List.any_eq_false]
    intro li hli
    simp [hdig li hli]
  have hc0 := create_ok e cid slug email billing lines hch hne
  rw [hcl] at hc0
  have hap := attemptPayment_delegates e
    { id := cid, channelSlug := slug, email := email, lines := lines,
      billingAddress := billing, shippingAddress := none,
      isShippingRequired := false, shippingMethod := none,
      paymentAttempt := none, completed := false } (by simp)
  rw [hg] at hap
  have hready : canComplete
      { id := cid, channelSlug := slug, email := email, lines := lines,
        billingAddress := billing, shippingAddress := none,
        isShippingRequired := false, shippingMethod := none,
        paymentAttempt := some [], completed := false } = true := by
    simp [canComplete]
  refine ⟨_, hc0, rfl, rfl, ?_, ?_⟩
  · rw [hap]
    exact ⟨_, _, complete_eq_of_ready _ rfl hready, rfl, rfl⟩
  · refine ⟨[.attemptPayment, .complete], by decide, ?_⟩
    show (applyOp e .complete (applyOp e .attemptPayment _)).completed = true
    rw [applyOp, hap]
    rw [applyOp, complete_eq_of_ready _ rfl hready]

/-- Witness for C9 at the concrete fixture: the digital line in the
default channel with the accepting gateway. -/
theorem digital_short_circuit_witness :
    "default-channel" ∈ envW.channels ∧ ([digLine] : List LineItem) ≠ [] ∧
    (∀ li ∈ [digLine], li.isDigital = true) ∧
    (∀ d, envW.gateway d = []) ∧
    (∃ c0, create envW 1 "default-channel" "customer@example.com" (some 3)
          [digLine] = .ok c0 ∧
      c0.isShippingRequired = false ∧ c0.shippingAddress = none ∧
      (∃ c2 o, complete (attemptPayment envW c0).1 = .ok (c2, o) ∧
        o.isShippingRequired = false ∧ o.status = .UNFULFILLED) ∧
      ∃ ops : List Op, (∀ op ∈ ops, op.touchesShipping = false) ∧
        (run envW ops c0).completed = true) :=
  ⟨by decide, by decide, by decide, fun d => rfl,
    digital_short_circuit envW 1 "default-channel" "customer@example.com"
      (some 3) [digLine] (by decide) (by decide) (by decide) (fun d => rfl)⟩

/-- C10 counterexample: a failed `attemptPayment` does not leave the
checkout's fields unchanged — it records the error list in
`paymentAttempt`, so the checkout after the call differs from the
checkout before it. -/
theorem attemptPayment_failure_mutates_checkout :
    (attemptPayment envW cPhysNoMethod).2.errors ≠ [] ∧
    (attemptPayment envW cPhysNoMethod).1 ≠ cPhysNoMethod := by
  decide

/-- C10 (amended): a failed `attemptPayment` changes no field of the
checkout other than `paymentAttempt` (in particular it stays
non-terminal), and the checkout remains fully recoverable: setting a
shipping address, resolving a method available for it, re-attempting
payment against a clean gateway, and completing all still succeed. -/
theorem attemptPayment_failure_frame_and_recoverable (e : Env)
    (c : Checkout) (a mid : Nat) (mname : String) (e2 : Env)
    (_herr : (attemptPayment e c).2.errors ≠ [])
    (hc : c.completed = false)
    (hm : (mid, mname) ∈ e2.rates a)
    (hg : ∀ d, e2.gateway d = []) :
    ((attemptPayment e c).1.id = c.id ∧
      (attemptPayment e c).1.channelSlug = c.channelSlug ∧
      (attemptPayment e c).1.email = c.email ∧
      (attemptPayment e c).1.lines = c.lines ∧
      (attemptPayment e c).1.billingAddress = c.billingAddress ∧
      (attemptPayment e c).1.shippingAddress = c.shippingAddress ∧
      (attemptPayment e c).1.isShippingRequired = c.isShippingRequired ∧
      (attemptPayment e c).1.shippingMethod = c.shippingMethod ∧
      (attemptPayment e c).1.completed = false) ∧
    ∃ c3 c4 c5 r c6 o,
      setShippingAddress (attemptPayment e c).1 a = .ok c3 ∧
      setShippingMethodByName e2 c3 mname = .ok c4 ∧
      attemptPayment e2 c4 = (c5, r) ∧ r.errors = [] ∧
      complete c5 = .ok (c6, o) ∧ c6.completed = true := by
  obtain ⟨p, hb⟩ := attemptPayment_shape e c
  have hframe : (attemptPayment e c).1.id = c.id ∧
      (attemptPayment e c).1.channelSlug = c.channelSlug ∧
      (attemptPayment e c).1.email = c.email ∧
      (attemptPayment e c).1.lines = c.lines ∧
      (attemptPayment e c).1.billingAddress = c.billingAddress ∧
      (attemptPayment e c).1.shippingAddress = c.shippingAddress ∧
      (attemptPayment e c).1.isShippingRequired = c.isShippingRequired ∧
      (attemptPayment e c).1.shippingMethod = c.shippingMethod ∧
      (attemptPayment e c).1.completed = false := by
    rw [hb]
    exact ⟨rfl, rfl, rfl, rfl, rfl, rfl, rfl, rfl, hc⟩
  refine ⟨hframe, ?_⟩
  have h3 : setShippingAddress (attemptPayment e c).1 a = .ok
      { c with paymentAttempt := some p, shippingAddress := some a } := by
    rw [hb]
    exact setShippingAddress_ok _ a hc
  obtain ⟨m, hmfind⟩ : ∃ m,
      (e2.rates a).find? (fun m => m.2 = mname) = some m :=
    Option.isSome_iff_exists.mp
      (List.find?_isSome.mpr ⟨(mid, mname), hm, by simp⟩)
  have h4 : setShippingMethodByName e2
      { c with paymentAttempt := some p, shippingAddress := some a } mname
      = .ok
        { c with
          paymentAttempt := some p
          shippingAddress := some a
          shippingMethod := some (m.1, mname) } := by
    simp [setShippingMethodByName, hc, resolveShippingMethod, hmfind]
  have h5 := attemptPayment_delegates e2
    { c with
      paymentAttempt := some p
      shippingAddress := some a
      shippingMethod := some (m.1, mname) } (by simp)
  rw [hg] at h5
  have h6 := complete_eq_of_ready
    { c with
      paymentAttempt := some []
      shippingAddress := some a
      shippingMethod := some (m.1, mname) } (by simp [hc]) (by simp [canComplete])
  exact ⟨_, _, _, _, _, _, h3, h4, h5, rfl, h6, rfl⟩

/-- Witness for the amended C10: the concrete shipping-required
checkout without a method, recovered through address 5 and the
"Standard" method of the fixture environment. -/
theorem attemptPayment_failure_frame_and_recoverable_witness :
    (attemptPayment envW cPhysNoMethod).2.errors ≠ [] ∧
    cPhysNoMethod.completed = false ∧
    ((7, "Standard") ∈ envW.rates 5) ∧
    (((attemptPayment envW cPhysNoMethod).1.id = cPhysNoMethod.id ∧
      (attemptPayment envW cPhysNoMethod).1.channelSlug = cPhysNoMethod.channelSlug ∧
      (attemptPayment envW cPhysNoMethod).1.email = cPhysNoMethod.email ∧
      (attemptPayment envW cPhysNoMethod).1.lines = cPhysNoMethod.lines ∧
      (attemptPayment envW cPhysNoMethod).1.billingAddress = cPhysNoMethod.billingAddress ∧
      (attemptPayment envW cPhysNoMethod).1.shippingAddress = cPhysNoMethod.shippingAddress ∧
      (attemptPayment envW cPhysNoMethod).1.isShippingRequired = cPhysNoMethod.isShippingRequired ∧
      (attemptPayment envW cPhysNoMethod).1.shippingMethod = cPhysNoMethod.shippingMethod ∧
      (attemptPayment envW cPhysNoMethod).1.completed = false) ∧
    ∃ c3 c4 c5 r c6 o,
      setShippingAddress (attemptPayment envW cPhysNoMethod).1 5 = .ok c3 ∧
      setShippingMethodByName envW c3 "Standard" = .ok c4 ∧
      attemptPayment envW c4 = (c5, r) ∧ r.errors = [] ∧
      complete c5 = .ok (c6, o) ∧ c6.completed = true) :=
  ⟨by decide, rfl, by decide,
    attemptPayment_failure_frame_and_recoverable envW cPhysNoMethod 5 7
      "Standard" envW (by decide) rfl (by decide) (fun d => rfl)⟩

/-! Replay of the source test SALEOR_0404
(purchaseWithProductTypes.js, lines 92 to 146) against the model — the
exact call sequence of the test with the concrete fixtures, showing the
model reproduces every assertion the test makes, and that the literal
keep-the-flag reading of the spec's `updateLines` sentence cannot. -/

/-- `cDig` after its first successful `addPayment` (test line 104). -/
def cDigPaid : Checkout := { cDig with paymentAttempt := some [] }

/-- After `checkoutVariantsUpdate` to the physical variant (line 107). -/
def cU : Checkout :=
  { cDigPaid with lines := [physLine], isShippingRequired := true }

/-- After `checkoutShippingAddressUpdate` (line 118). -/
def cA : Checkout := { cU with shippingAddress := some 5 }

/-- After the failed `addPayment` (lines 120 to 127). -/
def cA2 : Checkout :=
  { cA with paymentAttempt := some [PayError.ShippingMethodRequired] }

/-- After `updateShippingInCheckout` (line 128). -/
def cM : Checkout := { cA2 with shippingMethod := some (7, "Standard") }

/-- After the final successful `addPayment` (line 131). -/
def cM2 : Checkout := { cM with paymentAttempt := some [] }

/-- The checkout once `completeCheckout` has run (line 134). -/
def cDone : Checkout := { cM2 with completed := true }

/-- The order the test asserts on (lines 136 to 145). -/
def oFinal : Order :=
  { id := 1
    status := .UNFULFILLED
    isShippingRequired := true
    lines := [physLine]
    billingAddress := some 3
    shippingAddress := some 5
    paymentResult := some [] }

/-- The model replays test SALEOR_0404 step by step and satisfies every
assertion of the test: the method lookup before an address is set yields
nothing (lines 109 to 117), `addPayment` after the address but before
the method yields exactly one error (lines 120 to 127), and the final
order has `isShippingRequired = true` and status UNFULFILLED (lines 136
to 145). -/
theorem scenario_SALEOR_0404 :
    create envW 1 "default-channel" "customer@example.com" (some 3) [digLine]
        = .ok cDig ∧
    attemptPayment envW cDig = (cDigPaid, { success := true, errors := [] }) ∧
    updateLines cDigPaid [physLine] = .ok cU ∧
    resolveShippingMethod envW cU "Standard" = none ∧
    setShippingAddress cU 5 = .ok cA ∧
    attemptPayment envW cA
        = (cA2, { success := false, errors := [.ShippingMethodRequired] }) ∧
    (attemptPayment envW cA).2.errors.length = 1 ∧
    setShippingMethodByName envW cA2 "Standard" = .ok cM ∧
    attemptPayment envW cM = (cM2, { success := true, errors := [] }) ∧
    complete cM2 = .ok (cDone, oFinal) ∧
    oFinal.isShippingRequired = true ∧ oFinal.status = .UNFULFILLED := by
  decide

/-- The checkout after a keep-the-flag `updateLines` to the physical
variant: the flag stays at its creation value, false. -/
def cUk : Checkout := { cDigPaid with lines := [physLine] }

/-- Under the literal reading of the spec's `updateLines` sentence (flag
fixed at creation), replaying the same test sequence makes the
`addPayment` after the address and before the method return zero errors,
where the source test asserts exactly one — so that reading contradicts
the source and the recomputing model is the faithful one. -/
theorem scenario_SALEOR_0404_keepFlag_contradicts_source :
    updateLinesKeepFlag cDigPaid [physLine] = .ok cUk ∧
    cUk.isShippingRequired = false ∧
    setShippingAddress cUk 5 = .ok { cUk with shippingAddress := some 5 } ∧
    (attemptPayment envW { cUk with shippingAddress := some 5 }).2.errors.length
      = 0 := by
  decide

end Saleor
